import Mathlib

/-!
Verification of the agroservices IPM request-construction core
(src/agroservices/ipm.py) against its natural-language specification.

The embedding is shallow: Python dicts become association lists over
String keys, JSON values become the inductive type J, the datetime
values produced by the resolver become a free algebra of the operations
the code performs (parse, today, add one day, serialize with the local
timezone offset), and every fallible Python operation (KeyError,
IndexError, UnboundLocalError, ValueError, AssertionError) becomes an
Except computation.
-/

/-- JSON-shaped values: Python None, bool, int, str, list, dict.
Python floats do not occur in the composed documents the claims touch. -/
inductive J where
  | null : J
  | b : Bool → J
  | i : Int → J
  | s : String → J
  | arr : List J → J
  | obj : List (String × J) → J

/-- Lookup in a Python dict (association list, unique keys, first match). -/
def aget {α : Type} : List (String × α) → String → Option α
  | [], _ => none
  | (k, v) :: rest, key => if k == key then some v else aget rest key

/-- Python `key in d`. -/
def ahas {α : Type} (l : List (String × α)) (k : String) : Bool :=
  (aget l k).isSome

/-- Python `d[key] = v`: replace the binding in place, else append. -/
def aset {α : Type} : List (String × α) → String → α → List (String × α)
  | [], key, v => [(key, v)]
  | (k, w) :: rest, key, v =>
      if k == key then (key, v) :: rest else (k, w) :: aset rest key v

/-- Python `d.pop(key)` (the key is present at every call site modelled). -/
def apop {α : Type} : List (String × α) → String → List (String × α)
  | [], _ => []
  | (k, w) :: rest, key => if k == key then rest else (k, w) :: apop rest key

/-- Lookup on a J object; none on non-objects and absent keys. -/
def jget : J → String → Option J
  | J.obj fields, k => aget fields k
  | _, _ => none

/-- Python exceptions raised by the embedded code, with the payload the
message carries.  valueError keeps the exact message string; the two
assertion errors of model_input are kept structured: incompatibleCodes
stands for AssertionError "WeatherData parameter are missing: ..." with
the set difference, incompatibleInterval for AssertionError "weatherdata
interval is not fullfilling model requirements". -/
inductive PyErr where
  | keyError : String → PyErr
  | indexError : PyErr
  | unboundLocal : String → PyErr
  | valueError : String → PyErr
  | typeError : PyErr
  | incompatibleCodes : List String → PyErr
  | incompatibleInterval : PyErr
deriving DecidableEq

/-- Datetime values as the free algebra of the operations the resolver
performs: datetime.fromisoformat on a validated string, datetime.today,
and + timedelta(days=n).  The code never inspects a datetime. -/
inductive DTime where
  | fromIso : String → DTime
  | today : DTime
  | addDays : DTime → Nat → DTime
deriving DecidableEq

/-- Values stored in a request-parameter dict.  isoLocal d stands for
d.astimezone().isoformat(): the ISO-8601 serialization with the local
timezone offset. -/
inductive PValue where
  | int : Int → PValue
  | rat : ℚ → PValue
  | str : String → PValue
  | bool : Bool → PValue
  | isoLocal : DTime → PValue
deriving DecidableEq

/-- Shape check used to model datetime.datetime.fromisoformat: the
string must start with a YYYY-MM-DD date (this is the part of the
CPython validation the claims exercise; a caller-supplied ISO-8601
timestamp passes it, the literal strings timeStart and timeEnd that the
buggy forecast branch passes do not). -/
def isoShape : List Char → Bool
  | c0 :: c1 :: c2 :: c3 :: c4 :: c5 :: c6 :: c7 :: c8 :: c9 :: _ =>
      c0.isDigit && c1.isDigit && c2.isDigit && c3.isDigit && c4 == '-' &&
      c5.isDigit && c6.isDigit && c7 == '-' && c8.isDigit && c9.isDigit
  | _ => false

/-- datetime.datetime.fromisoformat: a ValueError on a malformed string,
else an opaque datetime token remembering the input. -/
def fromisoformat (str : String) : Except PyErr DTime :=
  if isoShape str.toList then Except.ok (DTime.fromIso str)
  else Except.error (PyErr.valueError ("Invalid isoformat string: " ++ str))

/-- First feature of source["spatial"]["geoJSON"]["features"].  The id
values are kept as integers: the source applies int(...) to them. -/
structure Feature where
  id : Option Int
  properties_id : Option Int
deriving DecidableEq

/-- The fields of a weather-data-source descriptor that the resolver
reads.  Optional fields model possibly-missing dict keys; access to a
missing key raises the corresponding KeyError. -/
structure Source where
  id : String
  access_type : String
  temporal_intervals : List Int
  parameters_common : List String
  temporal_historic_start : Option String
  spatial_features : Option (List Feature)
deriving DecidableEq

/-- The keyword arguments accepted by the two resolver branches; every
field defaults to none (Python None / absent kwarg).  latitude defaults
to 67.2828, longitude to 14.3711 and altitude to 0 inside the forecast
branch, as in the source. -/
structure Kwargs where
  interval : Option Int := none
  parameters : Option (List String) := none
  timeStart : Option String := none
  timeEnd : Option String := none
  weatherStationId : Option Int := none
  latitude : Option ℚ := none
  longitude : Option ℚ := none
  altitude : Option ℚ := none
  ignoreErrors : Option Bool := none
deriving DecidableEq

/-- No overrides: resolve(source, ) with an empty kwargs dict. -/
def noOverrides : Kwargs := {}

/-- interval = source["temporal"]["intervals"][0] when not overridden
(IndexError on an empty list). -/
def resolveInterval (src : Source) (interval : Option Int) : Except PyErr Int :=
  match interval with
  | some iv => Except.ok iv
  | none =>
      match src.temporal_intervals with
      | [] => Except.error PyErr.indexError
      | iv :: _ => Except.ok iv

/-- Lines 257-264 of the source.  The local variable start is bound only
in the timeStart-defaulting branch; reading it while defaulting timeEnd
after a caller-supplied timeStart raises UnboundLocalError. -/
def resolveTimes (src : Source) (timeStart timeEnd : Option String) :
    Except PyErr (PValue × PValue) :=
  match timeStart with
  | none =>
      match src.temporal_historic_start with
      | none => Except.error (PyErr.keyError "historic")
      | some hs =>
          match fromisoformat hs with
          | Except.error e => Except.error e
          | Except.ok d =>
              let start := DTime.addDays d 1
              match timeEnd with
              | none => Except.ok (PValue.isoLocal start, PValue.isoLocal (DTime.addDays start 1))
              | some te => Except.ok (PValue.isoLocal start, PValue.str te)
  | some ts =>
      match timeEnd with
      | none => Except.error (PyErr.unboundLocal "start")
      | some te => Except.ok (PValue.str ts, PValue.str te)

/-- weatherStationId defaulting: hard-coded ids for info.fruitweb and
net.ipmdecisions.metos, else the id of the first spatial GeoJSON feature
(top-level id preferred, else properties.id). -/
def resolveStation (src : Source) (wsid : Option Int) : Except PyErr Int :=
  match wsid with
  | some n => Except.ok n
  | none =>
      if src.id == "info.fruitweb" then Except.ok 18150029
      else if src.id == "net.ipmdecisions.metos" then Except.ok 732
      else
        match src.spatial_features with
        | none => Except.error (PyErr.keyError "spatial")
        | some feats =>
            match feats with
            | [] => Except.error PyErr.indexError
            | f :: _ =>
                match f.id with
                | some n => Except.ok n
                | none =>
                    match f.properties_id with
                    | some n => Except.ok n
                    | none => Except.error (PyErr.keyError "id")

/-- IPM.weatheradapter_observation_params (source lines 222-288). -/
def weatheradapter_observation_params (src : Source) (kw : Kwargs) :
    Except PyErr (List (String × PValue)) :=
  match resolveInterval src kw.interval with
  | Except.error e => Except.error e
  | Except.ok iv =>
      let ps := aset [] "interval" (PValue.int iv)
      let ps := aset ps "parameters"
        (PValue.str (String.intercalate "," (kw.parameters.getD src.parameters_common)))
      match resolveTimes src kw.timeStart kw.timeEnd with
      | Except.error e => Except.error e
      | Except.ok (tsv, tev) =>
          let ps := aset (aset ps "timeStart" tsv) "timeEnd" tev
          match resolveStation src kw.weatherStationId with
          | Except.error e => Except.error e
          | Except.ok wsid =>
              let ps := aset ps "weatherStationId" (PValue.int wsid)
              if src.id == "fi.fmi.observation.station" then
                Except.ok (aset ps "ignoreErrors" (PValue.bool (kw.ignoreErrors.getD true)))
              else Except.ok ps

/-- IPM.weatheradapter_forecast_params (source lines 172-220).  Note the
source bug kept faithfully: when a timeStart or timeEnd option is
supplied, the code calls fromisoformat on the literal strings timeStart
and timeEnd instead of on the supplied values. -/
def weatheradapter_forecast_params (src : Source) (kw : Kwargs) :
    Except PyErr (List (String × PValue)) :=
  let ps := aset [] "latitude" (PValue.rat (kw.latitude.getD (67.2828 : ℚ)))
  let ps := aset ps "longitude" (PValue.rat (kw.longitude.getD (14.3711 : ℚ)))
  let ps := aset ps "altitude" (PValue.rat (kw.altitude.getD 0))
  match resolveInterval src kw.interval with
  | Except.error e => Except.error e
  | Except.ok iv =>
      let ps := aset ps "interval" (PValue.int iv)
      let ps := aset ps "parameters"
        (PValue.str (String.intercalate "," (kw.parameters.getD src.parameters_common)))
      let ps := if src.id == "fi.fmi.forecast.location" then apop ps "altitude" else ps
      if src.id == "dk.dmi.pointweather" || src.id == "se.slu.lantmet" then
        match (match kw.timeStart with
               | some _ => fromisoformat "timeStart"
               | none => Except.ok DTime.today) with
        | Except.error e => Except.error e
        | Except.ok start =>
            match (match kw.timeEnd with
                   | some _ => fromisoformat "timeEnd"
                   | none => Except.ok (DTime.addDays start 1)) with
            | Except.error e => Except.error e
            | Except.ok dend =>
                Except.ok (aset (aset ps "timeStart" (PValue.isoLocal start))
                  "timeEnd" (PValue.isoLocal dend))
      else Except.ok ps

/-- IPM.weatheradapter_params (source lines 290-311): dispatch on
access_type, unknown values raise ValueError naming the value. -/
def weatheradapter_params (src : Source) (kw : Kwargs) :
    Except PyErr (List (String × PValue)) :=
  if src.access_type == "stations" then weatheradapter_observation_params src kw
  else if src.access_type == "location" then weatheradapter_forecast_params src kw
  else Except.error (PyErr.valueError ("Unknown access type : " ++ src.access_type))

/-!
Model-input synthesis and composition (IPM.model_input, source lines
833-898).  The JSF faking step is an external library call; the
generated skeleton therefore appears as an explicit argument input0 of
the composition function below, exactly as the Input Composer contract
of the specification takes it.  The shallow dict copy
schema = model["execution"]["input_schema"].copy() shares every nested
dict with the caller; the sentinel replacements therefore mutate the
caller-visible properties subtree while the later pop("definitions")
only affects the copy.  model_input_prep returns the mutated properties
dict (the state the shared subtree is left in) together with the
mutated configParameters properties dict that the override loop and the
field-observation injection read.
-/

/-- The two externally supplied field-observation property names, in
iteration order (source line 843). -/
def fieldobsNames : List String := ["fieldObservations", "fieldObservationQuantifications"]

/-- The replacement schema installed for a referenced field-observation
property p: a string schema whose pattern and default are the sentinel
made of p wrapped in braces (source lines 849-852). -/
def sentinelSchemaFor (p : String) : J :=
  J.obj [("type", J.s "string"),
         ("pattern", J.s ("^\x7b" ++ p ++ "\x7d$")),
         ("default", J.s ("\x7b" ++ p ++ "\x7d"))]

/-- The replacement schema installed for a declared weatherData
property: the sentinel token is the fixed string WEATHER_DATA in
braces, not the property name (source lines 846-848). -/
def weatherDataSentinelSchema : J :=
  J.obj [("type", J.s "string"),
         ("pattern", J.s "^\x7bWEATHER_DATA\x7d$"),
         ("default", J.s "\x7bWEATHER_DATA\x7d")]

/-- Source lines 841-855: fetch configParameters, replace a declared
weatherData property and the referenced field-observation properties by
their sentinel schemas.  Returns (mutated properties dict, mutated
configParameters properties dict).  Non-dict nodes where the code
subscripts or membership-tests a dict are modelled as TypeError; they
are unreachable on the schema shapes the claims exercise. -/
def model_input_prep (schema : J) : Except PyErr (List (String × J) × List (String × J)) :=
  match schema with
  | J.obj sf =>
      match aget sf "properties" with
      | none => Except.error (PyErr.keyError "properties")
      | some (J.obj props) =>
          match aget props "configParameters" with
          | none => Except.error (PyErr.keyError "configParameters")
          | some (J.obj cpf) =>
              let props1 :=
                if ahas props "weatherData"
                then aset props "weatherData" weatherDataSentinelSchema
                else props
              match aget cpf "properties" with
              | none => Except.error (PyErr.keyError "properties")
              | some (J.obj cpp0) =>
                  let cpp1 := fieldobsNames.foldl
                    (fun acc p => if ahas acc p then aset acc p (sentinelSchemaFor p) else acc)
                    cpp0
                  let cpf1 := aset cpf "properties" (J.obj cpp1)
                  Except.ok (aset props1 "configParameters" (J.obj cpf1), cpp1)
              | some _ => Except.error PyErr.typeError
          | some _ => Except.error PyErr.typeError
      | some _ => Except.error PyErr.typeError
  | _ => Except.error PyErr.typeError

/-- The value of model["execution"]["input_schema"] as the caller sees
it after model_input returns: the shallow copy shares the properties
subtree, so the sentinel mutations are visible, while the definitions
entry (popped only on the copy) is untouched. -/
def model_input_schema_after (schema : J) : Except PyErr J :=
  match schema with
  | J.obj sf =>
      match model_input_prep schema with
      | Except.error e => Except.error e
      | Except.ok (props2, _) => Except.ok (J.obj (aset sf "properties" (J.obj props2)))
  | _ => Except.error PyErr.typeError

/-- Source lines 863-870: for each key of the generated
configParameters dict, in order, take the caller override when the key
is in the parameters dict, else the default declared in the (mutated)
schema entry for the key when there is one, else keep the generated
value.  A generated key with no schema entry raises KeyError. -/
def applyOverrides (cpp overrides : List (String × J)) :
    List (String × J) → Except PyErr (List (String × J))
  | [] => Except.ok []
  | (p, v) :: rest =>
      match (if ahas overrides p then Except.ok ((aget overrides p).getD v)
             else
               match aget cpp p with
               | none => Except.error (PyErr.keyError p)
               | some (J.obj pdf) => Except.ok ((aget pdf "default").getD v)
               | some _ => Except.error PyErr.typeError) with
      | Except.error e => Except.error e
      | Except.ok v1 =>
          match applyOverrides cpp overrides rest with
          | Except.error e => Except.error e
          | Except.ok rest1 => Except.ok ((p, v1) :: rest1)

/-- Source lines 860-870 wrapped with the `"configParameters" in input`
guard. -/
def phase_overrides (cpp overrides : List (String × J)) (f0 : List (String × J)) :
    Except PyErr (List (String × J)) :=
  match aget f0 "configParameters" with
  | none => Except.ok f0
  | some (J.obj ckvs) =>
      match applyOverrides cpp overrides ckvs with
      | Except.error e => Except.error e
      | Except.ok ckvs1 => Except.ok (aset f0 "configParameters" (J.obj ckvs1))
  | some _ => Except.error PyErr.typeError

/-- Source lines 873-877: required parameter codes and the first
declared interval; subscripting an empty declared list raises
IndexError. -/
structure WeatherParam where
  parameter_code : String
  interval : Int
deriving DecidableEq

/-- The fields of a model descriptor that model_input reads. -/
structure Model where
  id : String
  input_schema : J
  weather_parameters : Option (List WeatherParam)

def weather_requirements (model : Model) : Except PyErr (List String × Option Int) :=
  match model.weather_parameters with
  | none => Except.ok ([], none)
  | some [] => Except.error PyErr.indexError
  | some (w :: ws) =>
      Except.ok (((w :: ws).map (fun x => x.parameter_code)), some w.interval)

/-- Python `code in weather_data["weatherParameters"]` for a string
code: true exactly on a string element equal to it. -/
def jhasStr (xs : List J) (c : String) : Bool :=
  xs.any (fun x => match x with | J.s t => t == c | _ => false)

/-- Python `interval == weather_data["interval"]` where the left side is
None when the model declares no weather parameters.  Python bools are
int subtypes, so J.b is compared by value. -/
def intervalMatches : Option Int → J → Bool
  | none, J.null => true
  | none, _ => false
  | some n, J.i m => n == m
  | some n, J.b bv => (if bv then (1 : Int) else 0) == n
  | some _, _ => false

/-- Source lines 881-882 / 886-887: the two assertions on supplied
weather data.  The missing codes are the required codes absent from the
weatherParameters list, in declaration order. -/
def weather_checks (required : List String) (intervalReq : Option Int) (wd : J) :
    Except PyErr Unit :=
  match wd with
  | J.obj wf =>
      match aget wf "weatherParameters" with
      | none => Except.error (PyErr.keyError "weatherParameters")
      | some (J.arr ws) =>
          let missing := required.filter (fun c => !(jhasStr ws c))
          if missing.isEmpty then
            match aget wf "interval" with
            | none => Except.error (PyErr.keyError "interval")
            | some wiv =>
                if intervalMatches intervalReq wiv then Except.ok ()
                else Except.error PyErr.incompatibleInterval
          else Except.error (PyErr.incompatibleCodes missing)
      | some _ => Except.error PyErr.typeError
  | _ => Except.error PyErr.typeError

/-- Source lines 878-888: weather data is mandatory when the generated
skeleton contains a weatherData key; data supplied while the skeleton
lacks the key is still validated and injected when the (mutated) schema
properties declare the key, and silently ignored otherwise. -/
def phase_weather (model : Model) (required : List String) (intervalReq : Option Int)
    (mprops : List (String × J)) (wd : Option J) (f1 : List (String × J)) :
    Except PyErr (List (String × J)) :=
  if ahas f1 "weatherData" then
    match wd with
    | none => Except.error (PyErr.valueError (model.id ++ " requires WeatherData as input"))
    | some w =>
        match weather_checks required intervalReq w with
        | Except.error e => Except.error e
        | Except.ok _ => Except.ok (aset f1 "weatherData" w)
  else
    match wd with
    | none => Except.ok f1
    | some w =>
        if ahas mprops "weatherData" then
          match weather_checks required intervalReq w with
          | Except.error e => Except.error e
          | Except.ok _ => Except.ok (aset f1 "weatherData" w)
        else Except.ok f1

/-- Source lines 889-897, one step of the zip loop: a property
referenced by the generated configParameters with no supplied value
raises ValueError; a supplied value is substituted when referenced by
the skeleton or declared by the (mutated) schema config properties, and
ignored otherwise. -/
def phase_fieldobs (model : Model) (cpp : List (String × J)) (p : String)
    (pvalue : Option J) (f : List (String × J)) : Except PyErr (List (String × J)) :=
  match aget f "configParameters" with
  | none => Except.error (PyErr.keyError "configParameters")
  | some (J.obj ckvs) =>
      if ahas ckvs p then
        match pvalue with
        | none => Except.error (PyErr.valueError (model.id ++ " requires " ++ p ++ " as input"))
        | some v => Except.ok (aset f "configParameters" (J.obj (aset ckvs p v)))
      else
        match pvalue with
        | none => Except.ok f
        | some v =>
            if ahas cpp p then Except.ok (aset f "configParameters" (J.obj (aset ckvs p v)))
            else Except.ok f
  | some _ => Except.error PyErr.typeError

/-- IPM.model_input (source lines 833-898).  input0 is the skeleton
document produced by the external JSF faker from the prepared schema;
overrides is the parameters dict (None becomes the empty dict at lines
861-862, so it is passed directly as a possibly empty association
list). -/
def model_input (model : Model) (input0 : J) (overrides : List (String × J))
    (weather_data field_observations field_observation_quantifications : Option J) :
    Except PyErr J :=
  match model_input_prep model.input_schema with
  | Except.error e => Except.error e
  | Except.ok (mprops, cpp) =>
      match input0 with
      | J.obj f0 =>
          match phase_overrides cpp overrides f0 with
          | Except.error e => Except.error e
          | Except.ok f1 =>
              match weather_requirements model with
              | Except.error e => Except.error e
              | Except.ok (required, intervalReq) =>
                  match phase_weather model required intervalReq mprops weather_data f1 with
                  | Except.error e => Except.error e
                  | Except.ok f2 =>
                      match phase_fieldobs model cpp "fieldObservations"
                          field_observations f2 with
                      | Except.error e => Except.error e
                      | Except.ok f2b =>
                          match phase_fieldobs model cpp "fieldObservationQuantifications"
                              field_observation_quantifications f2b with
                          | Except.error e => Except.error e
                          | Except.ok f3 => Except.ok (J.obj f3)
      | _ => Except.error PyErr.typeError

/-!
Concrete fixtures used by counterexamples and witnesses.
-/

/-- A stations source with the three conditions of claim C1 but no
spatial GeoJSON (the spec resolver-defaulting example has none
either). -/
def src_c1_bad : Source :=
  { id := "org.example.station", access_type := "stations",
    temporal_intervals := [3600], parameters_common := ["TM"],
    temporal_historic_start := some "2020-01-01T00:00:00+00:00",
    spatial_features := none }

/-- The C1 source completed with a spatial feature carrying an id. -/
def src_c1_good : Source :=
  { src_c1_bad with spatial_features := some [{ id := some 101, properties_id := none }] }

/-- A location source requiring a time window. -/
def src_c7 : Source :=
  { id := "dk.dmi.pointweather", access_type := "location",
    temporal_intervals := [3600], parameters_common := ["TM"],
    temporal_historic_start := none, spatial_features := none }

/-- The caller supplies a perfectly valid ISO-8601 timeStart option. -/
def kw_c7 : Kwargs := { timeStart := some "2020-06-12T00:00:00+03:00" }

/-- A source with an access type outside the stations/location set. -/
def src_c9 : Source :=
  { id := "org.example.bogus", access_type := "bogus",
    temporal_intervals := [], parameters_common := [],
    temporal_historic_start := none, spatial_features := none }

/-- A stations source for the unbound-local witness. -/
def src_c10 : Source :=
  { id := "org.example.station", access_type := "stations",
    temporal_intervals := [3600], parameters_common := ["TM", "RH"],
    temporal_historic_start := some "2020-01-01T00:00:00+00:00",
    spatial_features := some [{ id := some 5, properties_id := none }] }

/-- Overrides supplying timeStart but not timeEnd. -/
def kw_c10 : Kwargs := { timeStart := some "2020-06-12T00:00:00+03:00" }

/-- Overrides fixing everything except the station id. -/
def kw_c8 : Kwargs :=
  { interval := some 3600, timeStart := some "2020-06-12T00:00:00+03:00",
    timeEnd := some "2020-06-13T00:00:00+03:00" }

/-- The first hard-coded-station source. -/
def src_c8_fruitweb : Source :=
  { id := "info.fruitweb", access_type := "stations",
    temporal_intervals := [3600], parameters_common := ["TM"],
    temporal_historic_start := none, spatial_features := none }

/-- The second hard-coded-station source. -/
def src_c8_metos : Source :=
  { id := "net.ipmdecisions.metos", access_type := "stations",
    temporal_intervals := [3600], parameters_common := ["TM"],
    temporal_historic_start := none, spatial_features := none }

/-- A generic stations source whose first feature has only a
properties id. -/
def src_c8_geo : Source :=
  { id := "com.example.geo", access_type := "stations",
    temporal_intervals := [3600], parameters_common := ["TM"],
    temporal_historic_start := none,
    spatial_features := some [{ id := none, properties_id := some 42 }] }

/-- The source that additionally resolves ignoreErrors. -/
def src_c8_fmi : Source :=
  { id := "fi.fmi.observation.station", access_type := "stations",
    temporal_intervals := [3600], parameters_common := ["TM"],
    temporal_historic_start := none,
    spatial_features := some [{ id := some 7, properties_id := none }] }

/-- A model input schema declaring weatherData, one config parameter
with a default, and a definitions sub-tree. -/
def schema_c5 : J :=
  J.obj [("type", J.s "object"),
         ("properties", J.obj
           [("weatherData", J.obj [("type", J.s "object")]),
            ("configParameters", J.obj
              [("type", J.s "object"),
               ("properties", J.obj
                 [("timeZone", J.obj [("type", J.s "string"), ("default", J.s "UTC")])])])]),
         ("definitions", J.obj [("Entry", J.obj [("type", J.s "object")])])]

/-- A schema with no weatherData property and no field-observation
config properties. -/
def schema_c5_plain : J :=
  J.obj [("properties", J.obj
           [("configParameters", J.obj [("properties", J.obj [])])]),
         ("definitions", J.s "kept")]

/-- The properties dict of the C6 schema. -/
def props_c6 : List (String × J) :=
  [("weatherData", J.obj [("type", J.s "object")]),
   ("configParameters", J.obj
     [("properties", J.obj
       [("fieldObservations", J.obj [("type", J.s "array")])])])]

/-- A schema declaring both weatherData and a referenced
fieldObservations config property. -/
def schema_c6 : J := J.obj [("properties", J.obj props_c6)]

/-- The per-key policy of the override loop (source lines 864-870):
caller override first, else the default declared by the (mutated)
schema entry, else the generated value.  The fallthrough arm covers the
error cases the loop would instead raise on. -/
def composedConfigValue (cpp overrides : List (String × J)) (p : String) (v : J) : J :=
  if ahas overrides p then (aget overrides p).getD v
  else
    match aget cpp p with
    | some (J.obj pdf) => (aget pdf "default").getD v
    | _ => v

/-- A model whose schema declares weatherData and one declared weather
parameter TM at interval 3600. -/
def model_c2 : Model :=
  { id := "no.example.weather",
    input_schema := J.obj [("properties", J.obj
      [("weatherData", J.obj [("type", J.s "object")]),
       ("configParameters", J.obj [("properties", J.obj [])])])],
    weather_parameters := some [{ parameter_code := "TM", interval := 3600 }] }

/-- The skeleton the faker generates for the prepared C2 schema. -/
def skel_c2 : J :=
  J.obj [("configParameters", J.obj []), ("weatherData", J.s "\x7bWEATHER_DATA\x7d")]

/-- Weather data carrying TM and RH at interval 3600. -/
def wf_c2_ok : List (String × J) :=
  [("weatherParameters", J.arr [J.s "TM", J.s "RH"]), ("interval", J.i 3600)]

/-- The same weather data at interval 7200. -/
def wf_c2_bad : List (String × J) :=
  [("weatherParameters", J.arr [J.s "TM", J.s "RH"]), ("interval", J.i 7200)]

/-- A model whose schema declares weatherData, used with a skeleton
that omits it. -/
def model_c3 : Model :=
  { id := "no.example.model",
    input_schema := J.obj [("properties", J.obj
      [("weatherData", J.obj [("type", J.s "object")]),
       ("configParameters", J.obj [("properties", J.obj [])])])],
    weather_parameters := none }

/-- A generated skeleton without a weatherData key. -/
def skel_c3 : J := J.obj [("configParameters", J.obj [])]

/-- The C3 model with a skeleton that does contain weatherData. -/
def skel_c3b : J :=
  J.obj [("configParameters", J.obj []), ("weatherData", J.s "\x7bWEATHER_DATA\x7d")]

/-- A model whose config parameters reference fieldObservations. -/
def model_c3f : Model :=
  { id := "no.example.fieldmodel",
    input_schema := J.obj [("properties", J.obj
      [("configParameters", J.obj [("properties", J.obj
         [("fieldObservations", J.obj [("type", J.s "array")])])])])],
    weather_parameters := none }

/-- The skeleton generated for the C3 field-observation model. -/
def skel_c3f : J :=
  J.obj [("configParameters", J.obj
    [("fieldObservations", J.s "\x7bfieldObservations\x7d")])]

/-- A model whose schema references neither weatherData nor any
field-observation property. -/
def model_c3p : Model :=
  { id := "no.example.plain",
    input_schema := J.obj [("properties", J.obj
      [("configParameters", J.obj [("properties", J.obj [])])])],
    weather_parameters := none }

/-- The skeleton generated for the plain C3 model. -/
def skel_c3p : J := J.obj [("configParameters", J.obj [])]

/-- A model with a referenced fieldObservations config property, a
caller override for it and an injected dataset. -/
def model_c4 : Model :=
  { id := "no.example.fieldobs",
    input_schema := J.obj
      [("properties", J.obj
        [("configParameters", J.obj
          [("properties", J.obj
            [("fieldObservations", J.obj [("type", J.s "array")]),
             ("timeZone", J.obj [("type", J.s "string"), ("default", J.s "UTC")]),
             ("threshold", J.obj [("type", J.s "integer")])])])])],
    weather_parameters := none }

/-- The skeleton generated for the C4 model. -/
def skel_c4 : J :=
  J.obj [("configParameters", J.obj
    [("fieldObservations", J.s "\x7bfieldObservations\x7d"),
     ("timeZone", J.s "fakedZone"),
     ("threshold", J.i 1)])]

/-- Caller overrides for the C4 model: one for the injected property
and one for an ordinary config parameter. -/
def overrides_c4 : List (String × J) :=
  [("fieldObservations", J.s "callerOverride"), ("threshold", J.i 9)]

/-- The dataset injected for fieldObservations in the C4 run. -/
def fo_c4 : J := J.s "injectedData"

/-- The composed document the C4 run produces: the injected dataset
overwrote the caller override for fieldObservations, the declared
default filled timeZone, and the caller override filled threshold. -/
def out_c4 : J :=
  J.obj [("configParameters", J.obj
    [("fieldObservations", J.s "injectedData"),
     ("timeZone", J.s "UTC"),
     ("threshold", J.i 9)])]

/-- A model whose config parameters reference only
fieldObservationQuantifications. -/
def model_c4q : Model :=
  { id := "no.example.quant",
    input_schema := J.obj
      [("properties", J.obj
        [("configParameters", J.obj
          [("properties", J.obj
            [("fieldObservationQuantifications", J.obj [("type", J.s "array")])])])])],
    weather_parameters := none }

/-- The skeleton generated for the quantifications model. -/
def skel_c4q : J :=
  J.obj [("configParameters", J.obj
    [("fieldObservationQuantifications", J.s "\x7bfieldObservationQuantifications\x7d")])]

/-- The dataset injected for fieldObservationQuantifications. -/
def foq_c4 : J := J.s "injectedQuant"

/-- The composed document of the quantifications run: the injected
dataset overwrote the caller override. -/
def out_c4q : J :=
  J.obj [("configParameters", J.obj
    [("fieldObservationQuantifications", J.s "injectedQuant")])]

-- THEOREMS-MARKER (all further definitions are inserted above this line)

/-!
Association-list facts used throughout the composition proofs.
-/

theorem aget_aset_self {α : Type} (l : List (String × α)) (k : String) (v : α) :
    aget (aset l k v) k = some v := by
  induction l with
  | nil => simp [aset, aget]
  | cons kv rest ih =>
      obtain ⟨k1, v1⟩ := kv
      by_cases h : k1 = k
      · subst h
        simp [aset, aget]
      · have hb : (k1 == k) = false := beq_eq_false_iff_ne.mpr h
        simp [aset, aget, hb, ih]

theorem aget_aset_ne {α : Type} (l : List (String × α)) (k k2 : String) (v : α)
    (h : k ≠ k2) : aget (aset l k v) k2 = aget l k2 := by
  have hb : (k == k2) = false := beq_eq_false_iff_ne.mpr h
  induction l with
  | nil => simp [aset, aget, hb]
  | cons kv rest ih =>
      obtain ⟨k1, v1⟩ := kv
      by_cases h1 : k1 = k
      · subst h1
        simp [aset, aget, hb]
      · have hb1 : (k1 == k) = false := beq_eq_false_iff_ne.mpr h1
        by_cases h2 : k1 = k2
        · subst h2
          simp [aset, aget, hb1]
        · have hb2 : (k1 == k2) = false := beq_eq_false_iff_ne.mpr h2
          simp [aset, aget, hb1, hb2, ih]

theorem aset_eq_of_aget {α : Type} (l : List (String × α)) (k : String) (v : α)
    (h : aget l k = some v) : aset l k v = l := by
  induction l with
  | nil => simp [aget] at h
  | cons kv rest ih =>
      obtain ⟨k1, v1⟩ := kv
      by_cases h1 : k1 = k
      · subst h1
        simp [aget] at h
        simp [aset, h]
      · have hb1 : (k1 == k) = false := beq_eq_false_iff_ne.mpr h1
        simp [aget, hb1] at h
        simp [aset, hb1, ih h]

theorem ahas_aset_ne {α : Type} (l : List (String × α)) (k k2 : String) (v : α)
    (h : k ≠ k2) : ahas (aset l k v) k2 = ahas l k2 := by
  simp [ahas, aget_aset_ne l k k2 v h]

/-!
Claim theorems.
-/

/-- Claim C9: parameter resolution dispatches stations sources to the
observation resolver and location sources to the forecast resolver, and
fails for every other access type with a ValueError naming the
offending value (the UnsupportedAccessType condition), producing no
parameter set. -/
theorem C9_access_type_dispatch (src : Source) (kw : Kwargs) :
    (src.access_type = "stations" →
      weatheradapter_params src kw = weatheradapter_observation_params src kw) ∧
    (src.access_type = "location" →
      weatheradapter_params src kw = weatheradapter_forecast_params src kw) ∧
    (src.access_type ≠ "stations" → src.access_type ≠ "location" →
      weatheradapter_params src kw =
        Except.error (PyErr.valueError ("Unknown access type : " ++ src.access_type))) := by
  refine ⟨fun h => ?_, fun h => ?_, fun h1 h2 => ?_⟩
  · unfold weatheradapter_params
    rw [h]
    rfl
  · unfold weatheradapter_params
    rw [h]
    rfl
  · have e1 : (src.access_type == "stations") = false := beq_eq_false_iff_ne.mpr h1
    have e2 : (src.access_type == "location") = false := beq_eq_false_iff_ne.mpr h2
    unfold weatheradapter_params
    rw [e1, e2]
    rfl

/-- Witness for C9 at the concrete bogus source of the spec example. -/
theorem C9_access_type_dispatch_witness :
    weatheradapter_params src_c9 noOverrides =
      Except.error (PyErr.valueError "Unknown access type : bogus") :=
  (C9_access_type_dispatch src_c9 noOverrides).2.2 (by decide) (by decide)

/-- Claim C10: on a stations source, supplying timeStart while leaving
timeEnd unset makes the observation resolver read the local variable
start, which is bound only when timeStart itself was defaulted, so the
call fails with UnboundLocalError instead of returning a parameter set
(interval resolution, which runs first, is assumed to succeed: an
interval override is given or the descriptor lists an interval). -/
theorem C10_timeEnd_needs_defaulted_timeStart (src : Source) (kw : Kwargs) (ts : String)
    (h1 : src.access_type = "stations") (h2 : kw.timeStart = some ts)
    (h3 : kw.timeEnd = none)
    (h4 : kw.interval.isSome ∨ src.temporal_intervals ≠ []) :
    weatheradapter_params src kw = Except.error (PyErr.unboundLocal "start") := by
  unfold weatheradapter_params
  rw [h1]
  show weatheradapter_observation_params src kw = _
  unfold weatheradapter_observation_params resolveInterval resolveTimes
  rw [h2, h3]
  rcases hi : kw.interval with _ | iv2
  · rcases hl : src.temporal_intervals with _ | ⟨iv, rest⟩
    · rcases h4 with h4 | h4
      · rw [hi] at h4
        simp at h4
      · exact absurd hl h4
    · rfl
  · rfl

/-- Witness for C10 at a concrete healthy stations source. -/
theorem C10_timeEnd_needs_defaulted_timeStart_witness :
    weatheradapter_params src_c10 kw_c10 = Except.error (PyErr.unboundLocal "start") :=
  C10_timeEnd_needs_defaulted_timeStart src_c10 kw_c10 "2020-06-12T00:00:00+03:00"
    (by decide) (by decide) (by decide) (Or.inr (by decide))

/-- Claim C7 records that location sources requiring a time window use
a caller-supplied timeStart; the code instead parses the literal string
timeStart, so the call raises ValueError.  This theorem evaluates the
code at the failing input: a dk.dmi.pointweather source resolved with a
well-formed ISO-8601 timeStart option. -/
theorem C7_forecast_literal_timeStart_bug :
    weatheradapter_params src_c7 kw_c7 =
      Except.error (PyErr.valueError "Invalid isoformat string: timeStart") := by
  rfl

/-- Claim C8: without a weatherStationId override, the observation
branch resolves the hard-coded fallback 18150029 for info.fruitweb and
732 for net.ipmdecisions.metos; every other source takes the id of the
first spatial GeoJSON feature, preferring the top-level id over
properties.id; fi.fmi.observation.station additionally resolves an
ignoreErrors flag defaulting to true unless overridden (and no other
source has the flag).  Interval and times are overridden so that only
the station lookup is being defaulted. -/
theorem C8_station_id_fallbacks (src : Source) (kw : Kwargs) (iv : Int) (ts te : String)
    (h1 : src.access_type = "stations") (h2 : kw.interval = some iv)
    (h3 : kw.timeStart = some ts) (h4 : kw.timeEnd = some te)
    (h5 : kw.weatherStationId = none) :
    (src.id = "info.fruitweb" →
      ∃ ps, weatheradapter_params src kw = Except.ok ps ∧
        aget ps "weatherStationId" = some (PValue.int 18150029)) ∧
    (src.id = "net.ipmdecisions.metos" →
      ∃ ps, weatheradapter_params src kw = Except.ok ps ∧
        aget ps "weatherStationId" = some (PValue.int 732)) ∧
    (∀ f fs, src.id ≠ "info.fruitweb" → src.id ≠ "net.ipmdecisions.metos" →
      src.spatial_features = some (f :: fs) →
      ∀ n, (f.id = some n ∨ (f.id = none ∧ f.properties_id = some n)) →
      ∃ ps, weatheradapter_params src kw = Except.ok ps ∧
        aget ps "weatherStationId" = some (PValue.int n) ∧
        (src.id = "fi.fmi.observation.station" →
          aget ps "ignoreErrors" = some (PValue.bool (kw.ignoreErrors.getD true))) ∧
        (src.id ≠ "fi.fmi.observation.station" → aget ps "ignoreErrors" = none)) := by
  refine ⟨fun hid => ?_, fun hid => ?_, fun f fs hidA hidB hsp n hn => ?_⟩
  · unfold weatheradapter_params weatheradapter_observation_params resolveInterval
      resolveTimes resolveStation
    rw [h1, h2, h3, h4, h5, hid]
    exact ⟨_, rfl, rfl⟩
  · unfold weatheradapter_params weatheradapter_observation_params resolveInterval
      resolveTimes resolveStation
    rw [h1, h2, h3, h4, h5, hid]
    exact ⟨_, rfl, rfl⟩
  · have e1 : (src.id == "info.fruitweb") = false := beq_eq_false_iff_ne.mpr hidA
    have e2 : (src.id == "net.ipmdecisions.metos") = false := beq_eq_false_iff_ne.mpr hidB
    unfold weatheradapter_params weatheradapter_observation_params resolveInterval
      resolveTimes resolveStation
    rw [h1, h2, h3, h4, h5, e1, e2, hsp]
    dsimp only
    rcases hn with hfid | ⟨hfid, hpid⟩
    · rw [hfid]
      cases hfi : src.id == "fi.fmi.observation.station" with
      | false =>
          refine ⟨_, rfl, rfl, fun heq => ?_, fun _ => rfl⟩
          rw [heq] at hfi
          simp at hfi
      | true =>
          refine ⟨_, rfl, rfl, fun _ => rfl, fun hne => absurd (eq_of_beq hfi) hne⟩
    · rw [hfid, hpid]
      cases hfi : src.id == "fi.fmi.observation.station" with
      | false =>
          refine ⟨_, rfl, rfl, fun heq => ?_, fun _ => rfl⟩
          rw [heq] at hfi
          simp at hfi
      | true =>
          refine ⟨_, rfl, rfl, fun _ => rfl, fun hne => absurd (eq_of_beq hfi) hne⟩

/-- Witness for C8 at the two hard-coded sources, a generic GeoJSON
source resolving properties.id, and the ignoreErrors source. -/
theorem C8_station_id_fallbacks_witness :
    (∃ ps, weatheradapter_params src_c8_fruitweb kw_c8 = Except.ok ps ∧
      aget ps "weatherStationId" = some (PValue.int 18150029)) ∧
    (∃ ps, weatheradapter_params src_c8_metos kw_c8 = Except.ok ps ∧
      aget ps "weatherStationId" = some (PValue.int 732)) ∧
    (∃ ps, weatheradapter_params src_c8_geo kw_c8 = Except.ok ps ∧
      aget ps "weatherStationId" = some (PValue.int 42) ∧
      aget ps "ignoreErrors" = none) ∧
    (∃ ps, weatheradapter_params src_c8_fmi kw_c8 = Except.ok ps ∧
      aget ps "weatherStationId" = some (PValue.int 7) ∧
      aget ps "ignoreErrors" = some (PValue.bool true)) := by
  refine ⟨?_, ?_, ?_, ?_⟩
  · exact (C8_station_id_fallbacks src_c8_fruitweb kw_c8 3600
      "2020-06-12T00:00:00+03:00" "2020-06-13T00:00:00+03:00"
      rfl rfl rfl rfl rfl).1 rfl
  · exact (C8_station_id_fallbacks src_c8_metos kw_c8 3600
      "2020-06-12T00:00:00+03:00" "2020-06-13T00:00:00+03:00"
      rfl rfl rfl rfl rfl).2.1 rfl
  · obtain ⟨ps, hok, hsid, _, hno⟩ := (C8_station_id_fallbacks src_c8_geo kw_c8 3600
      "2020-06-12T00:00:00+03:00" "2020-06-13T00:00:00+03:00"
      rfl rfl rfl rfl rfl).2.2 { id := none, properties_id := some 42 } []
      (by decide) (by decide) rfl 42 (Or.inr ⟨rfl, rfl⟩)
    exact ⟨ps, hok, hsid, hno (by decide)⟩
  · obtain ⟨ps, hok, hsid, hyes, _⟩ := (C8_station_id_fallbacks src_c8_fmi kw_c8 3600
      "2020-06-12T00:00:00+03:00" "2020-06-13T00:00:00+03:00"
      rfl rfl rfl rfl rfl).2.2 { id := some 7, properties_id := none } []
      (by decide) (by decide) rfl 7 (Or.inl rfl)
    exact ⟨ps, hok, hsid, hyes rfl⟩

/-- Claim C1 as stated is refuted: a stations source with a non-empty
interval list, non-empty common parameters and an ISO historic start,
but no spatial GeoJSON, makes the weatherStationId lookup raise
KeyError, so no parameter set is produced. -/
theorem C1_counterexample_no_spatial :
    weatheradapter_params src_c1_bad noOverrides =
      Except.error (PyErr.keyError "spatial") ∧
    ¬ ∃ ps, weatheradapter_params src_c1_bad noOverrides = Except.ok ps := by
  refine ⟨rfl, ?_⟩
  rintro ⟨ps, hps⟩
  rw [show weatheradapter_params src_c1_bad noOverrides =
        Except.error (PyErr.keyError "spatial") from rfl] at hps
  exact Except.noConfusion hps

/-- Claim C1 amended: additionally assuming the station lookup itself
succeeds (a spatial feature resolves an id, or the source is one of the
two hard-coded ones), resolving a stations source with no overrides
yields interval = first declared interval, parameters = the
comma-joined common codes, timeStart = the historic start plus one day
and timeEnd = timeStart plus one day, both serialized with the local
timezone offset, and the resolved weatherStationId. -/
theorem C1_amended_observation_defaults (src : Source) (iv : Int) (ivs : List Int)
    (c : String) (cs : List String) (hs : String) (sid : Int)
    (h1 : src.access_type = "stations")
    (h2 : src.temporal_intervals = iv :: ivs)
    (h3 : src.parameters_common = c :: cs)
    (h4 : src.temporal_historic_start = some hs)
    (h5 : isoShape hs.toList = true)
    (h6 : resolveStation src none = Except.ok sid) :
    ∃ ps, weatheradapter_params src noOverrides = Except.ok ps ∧
      aget ps "interval" = some (PValue.int iv) ∧
      aget ps "parameters" = some (PValue.str (String.intercalate "," (c :: cs))) ∧
      aget ps "timeStart" = some (PValue.isoLocal (DTime.addDays (DTime.fromIso hs) 1)) ∧
      aget ps "timeEnd" =
        some (PValue.isoLocal (DTime.addDays (DTime.addDays (DTime.fromIso hs) 1) 1)) ∧
      aget ps "weatherStationId" = some (PValue.int sid) := by
  have h6x : resolveStation src noOverrides.weatherStationId = Except.ok sid := h6
  unfold weatheradapter_params weatheradapter_observation_params resolveInterval
    resolveTimes fromisoformat
  rw [h1, h2, h3, h4]
  dsimp only
  rw [h5, h6x]
  cases hfi : src.id == "fi.fmi.observation.station" with
  | false =>
      exact ⟨_, rfl, rfl, rfl, rfl, rfl, rfl⟩
  | true =>
      exact ⟨_, rfl, rfl, rfl, rfl, rfl, rfl⟩

/-- Witness for the amended C1 at the spec resolver-defaulting example
completed with one spatial feature. -/
theorem C1_amended_observation_defaults_witness :
    ∃ ps, weatheradapter_params src_c1_good noOverrides = Except.ok ps ∧
      aget ps "interval" = some (PValue.int 3600) ∧
      aget ps "parameters" = some (PValue.str (String.intercalate "," ["TM"])) ∧
      aget ps "timeStart" =
        some (PValue.isoLocal (DTime.addDays (DTime.fromIso "2020-01-01T00:00:00+00:00") 1)) ∧
      aget ps "timeEnd" =
        some (PValue.isoLocal
          (DTime.addDays (DTime.addDays (DTime.fromIso "2020-01-01T00:00:00+00:00") 1) 1)) ∧
      aget ps "weatherStationId" = some (PValue.int 101) :=
  C1_amended_observation_defaults src_c1_good 3600 [] "TM" []
    "2020-01-01T00:00:00+00:00" 101 rfl rfl rfl rfl (by decide) rfl

/-- Claim C5 as stated is refuted: the schema copy is shallow, so the
sentinel replacement of a declared weatherData property mutates the
properties subtree the caller still holds; only the top level
(including the definitions entry) is protected. -/
theorem C5_counterexample_properties_mutated :
    model_input_schema_after schema_c5 =
      Except.ok (J.obj
        [("type", J.s "object"),
         ("properties", J.obj
           [("weatherData", weatherDataSentinelSchema),
            ("configParameters", J.obj
              [("type", J.s "object"),
               ("properties", J.obj
                 [("timeZone", J.obj [("type", J.s "string"), ("default", J.s "UTC")])])])]),
         ("definitions", J.obj [("Entry", J.obj [("type", J.s "object")])])]) ∧
    (J.obj
        [("type", J.s "object"),
         ("properties", J.obj
           [("weatherData", weatherDataSentinelSchema),
            ("configParameters", J.obj
              [("type", J.s "object"),
               ("properties", J.obj
                 [("timeZone", J.obj [("type", J.s "string"), ("default", J.s "UTC")])])])]),
         ("definitions", J.obj [("Entry", J.obj [("type", J.s "object")])])]) ≠ schema_c5 := by
  refine ⟨rfl, fun h => ?_⟩
  have h2 := congrArg
    (fun x => ((jget x "properties").bind (fun p => jget p "weatherData")).map
      (fun y => match y with | J.obj l => l.length | _ => 0)) h
  exact absurd h2 (by decide)

/-- Claim C5 amended: the top-level schema mapping is preserved (the
definitions entry in particular survives, the pop acting only on the
copy), but the shared properties subtree is left in its mutated state;
when the schema declares no weatherData property and no
field-observation config property, the caller's schema is unchanged. -/
theorem C5_amended_shallow_copy (sf props cpf cpp0 mprops cpp : List (String × J))
    (hsf : aget sf "properties" = some (J.obj props))
    (hcp : aget props "configParameters" = some (J.obj cpf))
    (hcpp : aget cpf "properties" = some (J.obj cpp0))
    (hprep : model_input_prep (J.obj sf) = Except.ok (mprops, cpp)) :
    model_input_schema_after (J.obj sf) =
      Except.ok (J.obj (aset sf "properties" (J.obj mprops))) ∧
    aget (aset sf "properties" (J.obj mprops)) "definitions" = aget sf "definitions" ∧
    (ahas props "weatherData" = false →
     ahas cpp0 "fieldObservations" = false →
     ahas cpp0 "fieldObservationQuantifications" = false →
     J.obj (aset sf "properties" (J.obj mprops)) = J.obj sf) := by
  refine ⟨?_, ?_, fun hw hf1 hf2 => ?_⟩
  · unfold model_input_schema_after
    dsimp only
    rw [hprep]
  · exact aget_aset_ne sf "properties" "definitions" (J.obj mprops) (by decide)
  · have hp := hprep
    simp only [model_input_prep, hsf, hcp, hcpp, fieldobsNames,
      List.foldl_cons, List.foldl_nil, hw, hf1, hf2,
      Bool.false_eq_true, if_false] at hp
    rw [aset_eq_of_aget cpf "properties" (J.obj cpp0) hcpp,
        aset_eq_of_aget props "configParameters" (J.obj cpf) hcp] at hp
    simp only [Except.ok.injEq, Prod.mk.injEq] at hp
    obtain ⟨hm, -⟩ := hp
    rw [← hm, aset_eq_of_aget sf "properties" (J.obj props) hsf]

/-- Witness for the amended C5: a schema with no placeholder
properties is returned to the caller unchanged. -/
theorem C5_amended_shallow_copy_witness :
    model_input_schema_after schema_c5_plain = Except.ok schema_c5_plain := by
  have h := C5_amended_shallow_copy
    [("properties", J.obj [("configParameters", J.obj [("properties", J.obj [])])]),
     ("definitions", J.s "kept")]
    [("configParameters", J.obj [("properties", J.obj [])])]
    [("properties", J.obj [])]
    []
    [("configParameters", J.obj [("properties", J.obj [])])]
    []
    rfl rfl rfl rfl
  exact h.1.trans (congrArg Except.ok (h.2.2 rfl rfl rfl))

/-- Claim C6 as stated is refuted: the sentinel installed for a
declared weatherData property is the fixed token WEATHER_DATA in
braces, not the property name weatherData in braces. -/
theorem C6_counterexample_weatherdata_token :
    (model_input_prep schema_c6).map (fun x => aget x.1 "weatherData") =
      Except.ok (some weatherDataSentinelSchema) ∧
    jget weatherDataSentinelSchema "pattern" = some (J.s "^\x7bWEATHER_DATA\x7d$") ∧
    jget weatherDataSentinelSchema "default" = some (J.s "\x7bWEATHER_DATA\x7d") ∧
    J.s "\x7bWEATHER_DATA\x7d" ≠ J.s ("\x7b" ++ "weatherData" ++ "\x7d") := by
  refine ⟨rfl, rfl, rfl, fun h => ?_⟩
  have h2 := congrArg (fun x => match x with | J.s t => t | _ => "") h
  exact absurd h2 (by decide)

/-- Claim C6 amended: a declared weatherData property is replaced by a
string schema whose pattern and default carry the fixed WEATHER_DATA
token in braces, while each referenced field-observation property is
replaced by the string schema carrying its own name in braces as both
pattern anchor and default. -/
theorem C6_amended_sentinel_replacement (sf props cpf cpp0 mprops cpp : List (String × J))
    (hsf : aget sf "properties" = some (J.obj props))
    (hcp : aget props "configParameters" = some (J.obj cpf))
    (hcpp : aget cpf "properties" = some (J.obj cpp0))
    (hprep : model_input_prep (J.obj sf) = Except.ok (mprops, cpp)) :
    (ahas props "weatherData" = true →
      aget mprops "weatherData" = some weatherDataSentinelSchema) ∧
    (ahas cpp0 "fieldObservations" = true →
      aget cpp "fieldObservations" = some (sentinelSchemaFor "fieldObservations")) ∧
    (ahas cpp0 "fieldObservationQuantifications" = true →
      aget cpp "fieldObservationQuantifications" =
        some (sentinelSchemaFor "fieldObservationQuantifications")) := by
  refine ⟨fun hw => ?_, fun hf => ?_, fun hf => ?_⟩
  · have hp := hprep
    simp only [model_input_prep, hsf, hcp, hcpp, fieldobsNames,
      List.foldl_cons, List.foldl_nil, hw, if_true] at hp
    simp only [Except.ok.injEq, Prod.mk.injEq] at hp
    obtain ⟨hm, -⟩ := hp
    rw [← hm, aget_aset_ne _ "configParameters" "weatherData" _ (by decide),
      aget_aset_self]
  · have hp := hprep
    simp only [model_input_prep, hsf, hcp, hcpp, fieldobsNames,
      List.foldl_cons, List.foldl_nil, hf, if_true] at hp
    rw [ahas_aset_ne cpp0 "fieldObservations" "fieldObservationQuantifications"
      (sentinelSchemaFor "fieldObservations") (by decide)] at hp
    simp only [Except.ok.injEq, Prod.mk.injEq] at hp
    obtain ⟨-, hc⟩ := hp
    cases hq : ahas cpp0 "fieldObservationQuantifications" with
    | false =>
        rw [hq] at hc
        simp only [Bool.false_eq_true, if_false] at hc
        rw [← hc, aget_aset_self]
    | true =>
        rw [hq] at hc
        simp only [if_true] at hc
        rw [← hc, aget_aset_ne _ "fieldObservationQuantifications" "fieldObservations" _
          (by decide), aget_aset_self]
  · have hswap : ahas (if ahas cpp0 "fieldObservations" = true
        then aset cpp0 "fieldObservations" (sentinelSchemaFor "fieldObservations")
        else cpp0) "fieldObservationQuantifications" =
        ahas cpp0 "fieldObservationQuantifications" := by
      cases hw2 : ahas cpp0 "fieldObservations" with
      | false => simp only [Bool.false_eq_true, if_false]
      | true =>
          simp only [if_true]
          exact ahas_aset_ne cpp0 "fieldObservations" "fieldObservationQuantifications"
            (sentinelSchemaFor "fieldObservations") (by decide)
    have hp := hprep
    simp only [model_input_prep, hsf, hcp, hcpp, fieldobsNames,
      List.foldl_cons, List.foldl_nil] at hp
    rw [hswap, hf] at hp
    simp only [eq_self_iff_true, if_true] at hp
    simp only [Except.ok.injEq, Prod.mk.injEq] at hp
    obtain ⟨-, hc⟩ := hp
    rw [← hc, aget_aset_self]

/-!
Inversion facts for the composition phases.
-/

theorem applyOverrides_cons_inv (cpp o : List (String × J)) (q : String) (w : J)
    (rest out1 : List (String × J))
    (h : applyOverrides cpp o ((q, w) :: rest) = Except.ok out1) :
    ∃ rest1, applyOverrides cpp o rest = Except.ok rest1 ∧
      out1 = (q, composedConfigValue cpp o q w) :: rest1 := by
  cases ho : ahas o q with
  | true =>
      simp only [applyOverrides, ho, if_true] at h
      cases hr : applyOverrides cpp o rest with
      | error e => rw [hr] at h; simp at h
      | ok rest1 =>
          rw [hr] at h
          simp only [Except.ok.injEq] at h
          refine ⟨rest1, rfl, ?_⟩
          rw [← h]
          simp [composedConfigValue, ho]
  | false =>
      rcases hc : aget cpp q with _ | pd
      · simp only [applyOverrides, ho, Bool.false_eq_true, if_false, hc] at h
        simp at h
      · cases pd with
        | obj pdf =>
            simp only [applyOverrides, ho, Bool.false_eq_true, if_false, hc] at h
            cases hr : applyOverrides cpp o rest with
            | error e => rw [hr] at h; simp at h
            | ok rest1 =>
                rw [hr] at h
                simp only [Except.ok.injEq] at h
                refine ⟨rest1, rfl, ?_⟩
                rw [← h]
                simp [composedConfigValue, ho, hc]
        | null => simp [applyOverrides, ho, hc] at h
        | b x => simp [applyOverrides, ho, hc] at h
        | i x => simp [applyOverrides, ho, hc] at h
        | s x => simp [applyOverrides, ho, hc] at h
        | arr xs => simp [applyOverrides, ho, hc] at h

theorem applyOverrides_aget (cpp o : List (String × J)) (ckvs : List (String × J)) :
    ∀ (out1 : List (String × J)) (p : String) (v : J),
      applyOverrides cpp o ckvs = Except.ok out1 → aget ckvs p = some v →
      aget out1 p = some (composedConfigValue cpp o p v) := by
  induction ckvs with
  | nil =>
      intro out1 p v h hv
      simp [aget] at hv
  | cons qv rest ih =>
      obtain ⟨q, w⟩ := qv
      intro out1 p v h hv
      obtain ⟨rest1, hr, hout⟩ := applyOverrides_cons_inv cpp o q w rest out1 h
      subst hout
      by_cases hqp : q = p
      · subst hqp
        simp only [aget, beq_self_eq_true, if_true, Option.some.injEq] at hv ⊢
        rw [hv]
      · have hbq : (q == p) = false := beq_eq_false_iff_ne.mpr hqp
        simp only [aget, hbq, Bool.false_eq_true, if_false] at hv ⊢
        exact ih rest1 p v hr hv

theorem phase_weather_config (model : Model) (required : List String)
    (intervalReq : Option Int) (mprops : List (String × J)) (wd : Option J)
    (f1 f2 : List (String × J))
    (h : phase_weather model required intervalReq mprops wd f1 = Except.ok f2) :
    aget f2 "configParameters" = aget f1 "configParameters" := by
  unfold phase_weather at h
  cases hf : ahas f1 "weatherData" with
  | true =>
      rw [hf] at h
      simp only [eq_self_iff_true, if_true] at h
      cases wd with
      | none => simp at h
      | some w =>
          dsimp only at h
          cases hc : weather_checks required intervalReq w with
          | error e => rw [hc] at h; simp at h
          | ok u =>
              rw [hc] at h
              simp only [Except.ok.injEq] at h
              rw [← h]
              exact aget_aset_ne f1 "weatherData" "configParameters" w (by decide)
  | false =>
      rw [hf] at h
      simp only [Bool.false_eq_true, if_false] at h
      cases wd with
      | none =>
          simp only [Except.ok.injEq] at h
          rw [← h]
      | some w =>
          dsimp only at h
          cases hm2 : ahas mprops "weatherData" with
          | true =>
              rw [hm2] at h
              simp only [eq_self_iff_true, if_true] at h
              cases hc : weather_checks required intervalReq w with
              | error e => rw [hc] at h; simp at h
              | ok u =>
                  rw [hc] at h
                  simp only [Except.ok.injEq] at h
                  rw [← h]
                  exact aget_aset_ne f1 "weatherData" "configParameters" w (by decide)
          | false =>
              rw [hm2] at h
              simp only [Bool.false_eq_true, if_false, Except.ok.injEq] at h
              rw [← h]

theorem phase_fieldobs_preserve (model : Model) (cpp : List (String × J)) (p : String)
    (pv : Option J) (f f' c : List (String × J)) (q : String)
    (hc : aget f "configParameters" = some (J.obj c))
    (h : phase_fieldobs model cpp p pv f = Except.ok f')
    (hq : q ≠ p) :
    ∃ c2, aget f' "configParameters" = some (J.obj c2) ∧ aget c2 q = aget c q := by
  unfold phase_fieldobs at h
  rw [hc] at h
  dsimp only at h
  cases hhas : ahas c p with
  | true =>
      rw [hhas] at h
      simp only [eq_self_iff_true, if_true] at h
      cases pv with
      | none => simp at h
      | some v =>
          simp only [Except.ok.injEq] at h
          refine ⟨aset c p v, ?_, aget_aset_ne c p q v (Ne.symm hq)⟩
          rw [← h]
          exact aget_aset_self f "configParameters" (J.obj (aset c p v))
  | false =>
      rw [hhas] at h
      simp only [Bool.false_eq_true, if_false] at h
      cases pv with
      | none =>
          simp only [Except.ok.injEq] at h
          rw [← h]
          exact ⟨c, hc, rfl⟩
      | some v =>
          cases hcp : ahas cpp p with
          | true =>
              rw [hcp] at h
              simp only [eq_self_iff_true, if_true, Except.ok.injEq] at h
              refine ⟨aset c p v, ?_, aget_aset_ne c p q v (Ne.symm hq)⟩
              rw [← h]
              exact aget_aset_self f "configParameters" (J.obj (aset c p v))
          | false =>
              rw [hcp] at h
              simp only [Bool.false_eq_true, if_false, Except.ok.injEq] at h
              rw [← h]
              exact ⟨c, hc, rfl⟩

theorem phase_fieldobs_inject (model : Model) (cpp : List (String × J)) (p : String)
    (dv : J) (f f' c : List (String × J))
    (hc : aget f "configParameters" = some (J.obj c))
    (hhas : ahas c p = true)
    (h : phase_fieldobs model cpp p (some dv) f = Except.ok f') :
    aget f' "configParameters" = some (J.obj (aset c p dv)) := by
  unfold phase_fieldobs at h
  rw [hc] at h
  dsimp only at h
  rw [hhas] at h
  simp only [eq_self_iff_true, if_true, Except.ok.injEq] at h
  rw [← h]
  exact aget_aset_self f "configParameters" (J.obj (aset c p dv))

theorem model_input_unfolded (model : Model) (f0 : List (String × J))
    (overrides : List (String × J)) (wd fo foq : Option J)
    (mprops cpp f1 : List (String × J)) (required : List String) (intervalReq : Option Int)
    (hprep : model_input_prep model.input_schema = Except.ok (mprops, cpp))
    (hph1 : phase_overrides cpp overrides f0 = Except.ok f1)
    (hwr : weather_requirements model = Except.ok (required, intervalReq)) :
    model_input model (J.obj f0) overrides wd fo foq =
      (match phase_weather model required intervalReq mprops wd f1 with
       | Except.error e => Except.error e
       | Except.ok f2 =>
           match phase_fieldobs model cpp "fieldObservations" fo f2 with
           | Except.error e => Except.error e
           | Except.ok f2b =>
               match phase_fieldobs model cpp "fieldObservationQuantifications" foq f2b with
               | Except.error e => Except.error e
               | Except.ok f3 => Except.ok (J.obj f3)) := by
  unfold model_input
  rw [hprep]
  dsimp only
  rw [hph1]
  dsimp only
  rw [hwr]

/-- Claim C2: when weather data is supplied and the skeleton carries a
weatherData key, and the model declares weather_parameters, composition
succeeds only if the supplied weatherParameters list contains every
declared parameter code and the supplied interval equals the first
declared interval; a missing code fails with the
IncompatibleWeatherData assertion carrying the missing codes, and an
interval mismatch fails with the interval assertion. -/
theorem C2_weather_compatibility (model : Model)
    (f0 overrides mprops cpp f1 wf : List (String × J))
    (w0 : WeatherParam) (wrest : List WeatherParam)
    (wps : List J) (wiv : J) (fo foq : Option J) (missing : List String)
    (hwp : model.weather_parameters = some (w0 :: wrest))
    (hprep : model_input_prep model.input_schema = Except.ok (mprops, cpp))
    (hph1 : phase_overrides cpp overrides f0 = Except.ok f1)
    (hwd : ahas f1 "weatherData" = true)
    (hwf1 : aget wf "weatherParameters" = some (J.arr wps))
    (hwf2 : aget wf "interval" = some wiv)
    (hmdef : missing = ((w0 :: wrest).map (fun x => x.parameter_code)).filter
      (fun c => !(jhasStr wps c))) :
    ((∃ out, model_input model (J.obj f0) overrides (some (J.obj wf)) fo foq =
        Except.ok out) →
      missing = [] ∧ intervalMatches (some w0.interval) wiv = true) ∧
    (missing ≠ [] →
      model_input model (J.obj f0) overrides (some (J.obj wf)) fo foq =
        Except.error (PyErr.incompatibleCodes missing)) ∧
    (missing = [] → intervalMatches (some w0.interval) wiv = false →
      model_input model (J.obj f0) overrides (some (J.obj wf)) fo foq =
        Except.error PyErr.incompatibleInterval) := by
  have hwr : weather_requirements model =
      Except.ok ((w0 :: wrest).map (fun x => x.parameter_code), some w0.interval) := by
    unfold weather_requirements
    rw [hwp]
  have hred := model_input_unfolded model f0 overrides (some (J.obj wf)) fo foq mprops cpp
    f1 ((w0 :: wrest).map (fun x => x.parameter_code)) (some w0.interval) hprep hph1 hwr
  have hchecks : weather_checks ((w0 :: wrest).map (fun x => x.parameter_code))
      (some w0.interval) (J.obj wf) =
      (if missing.isEmpty then
        (if intervalMatches (some w0.interval) wiv then Except.ok ()
         else Except.error PyErr.incompatibleInterval)
       else Except.error (PyErr.incompatibleCodes missing)) := by
    unfold weather_checks
    dsimp only
    rw [hwf1]
    dsimp only
    rw [hwf2, ← hmdef]
  have hWcodes : missing ≠ [] →
      phase_weather model ((w0 :: wrest).map (fun x => x.parameter_code))
        (some w0.interval) mprops (some (J.obj wf)) f1 =
        Except.error (PyErr.incompatibleCodes missing) := by
    intro hmiss
    unfold phase_weather
    rw [hwd]
    simp only [eq_self_iff_true, if_true]
    rw [hchecks]
    cases he : missing.isEmpty with
    | true => exact absurd (List.isEmpty_iff.mp he) hmiss
    | false => rfl
  have hWint : missing = [] → intervalMatches (some w0.interval) wiv = false →
      phase_weather model ((w0 :: wrest).map (fun x => x.parameter_code))
        (some w0.interval) mprops (some (J.obj wf)) f1 =
        Except.error PyErr.incompatibleInterval := by
    intro hmiss hint
    unfold phase_weather
    rw [hwd]
    simp only [eq_self_iff_true, if_true]
    rw [hchecks, hmiss, hint]
    rfl
  refine ⟨?_, ?_, ?_⟩
  · rintro ⟨out, hout⟩
    rw [hred] at hout
    by_cases hmiss : missing = []
    · cases hint : intervalMatches (some w0.interval) wiv with
      | true => exact ⟨hmiss, rfl⟩
      | false =>
          exfalso
          rw [hWint hmiss hint] at hout
          simp at hout
    · exfalso
      rw [hWcodes hmiss] at hout
      simp at hout
  · intro hmiss
    rw [hred, hWcodes hmiss]
  · intro hmiss hint
    rw [hred, hWint hmiss hint]

/-- Witness for C2 at the spec weather-compatibility example: the model
declares TM at interval 3600; data with TM and RH at 3600 composes
successfully, the same data at 7200 fails on the interval assertion,
and data missing TM fails carrying the missing code. -/
theorem C2_weather_compatibility_witness :
    model_input model_c2 skel_c2 [] (some (J.obj wf_c2_ok)) none none =
      Except.ok (J.obj [("configParameters", J.obj []), ("weatherData", J.obj wf_c2_ok)]) ∧
    model_input model_c2 skel_c2 [] (some (J.obj wf_c2_bad)) none none =
      Except.error PyErr.incompatibleInterval ∧
    model_input model_c2 skel_c2 []
        (some (J.obj [("weatherParameters", J.arr [J.s "RH"]), ("interval", J.i 3600)]))
        none none =
      Except.error (PyErr.incompatibleCodes ["TM"]) := by
  refine ⟨rfl, ?_, ?_⟩
  · exact (C2_weather_compatibility model_c2
      [("configParameters", J.obj []), ("weatherData", J.s "\x7bWEATHER_DATA\x7d")]
      []
      [("weatherData", weatherDataSentinelSchema),
       ("configParameters", J.obj [("properties", J.obj [])])]
      []
      [("configParameters", J.obj []), ("weatherData", J.s "\x7bWEATHER_DATA\x7d")]
      wf_c2_bad
      { parameter_code := "TM", interval := 3600 } []
      [J.s "TM", J.s "RH"] (J.i 7200) none none []
      rfl rfl rfl rfl rfl rfl rfl).2.2 rfl rfl
  · exact (C2_weather_compatibility model_c2
      [("configParameters", J.obj []), ("weatherData", J.s "\x7bWEATHER_DATA\x7d")]
      []
      [("weatherData", weatherDataSentinelSchema),
       ("configParameters", J.obj [("properties", J.obj [])])]
      []
      [("configParameters", J.obj []), ("weatherData", J.s "\x7bWEATHER_DATA\x7d")]
      [("weatherParameters", J.arr [J.s "RH"]), ("interval", J.i 3600)]
      { parameter_code := "TM", interval := 3600 } []
      [J.s "RH"] (J.i 3600) none none ["TM"]
      rfl rfl rfl rfl rfl rfl rfl).2.1 (by decide)

/-- Claim C3 as stated is refuted: the mandatory-weather check is keyed
on the generated skeleton, not on the schema.  Here the schema declares
weatherData but the skeleton omits it, and composing with no weather
data succeeds instead of failing with the missing-required-input
error. -/
theorem C3_counterexample_schema_vs_skeleton :
    (jget model_c3.input_schema "properties").bind (fun p => jget p "weatherData") =
      some (J.obj [("type", J.s "object")]) ∧
    model_input model_c3 skel_c3 [] none none none =
      Except.ok (J.obj [("configParameters", J.obj [])]) :=
  ⟨rfl, rfl⟩

/-- Claim C3 amended: the mandatory-input checks are keyed on the
generated skeleton.  If the skeleton carries a weatherData key and no
weather data is supplied, composition fails with the
missing-required-input error naming WeatherData; symmetrically, a
field-observation property referenced by the skeleton configParameters
with no supplied value fails naming that property; weather data
supplied while neither the skeleton nor the (mutated) schema properties
reference weatherData is silently ignored, as is a field-observation
value that neither the skeleton configParameters nor the schema config
properties reference. -/
theorem C3_amended_required_inputs (model : Model)
    (f0 overrides mprops cpp f1 : List (String × J))
    (required : List String) (intervalReq : Option Int)
    (hprep : model_input_prep model.input_schema = Except.ok (mprops, cpp))
    (hph1 : phase_overrides cpp overrides f0 = Except.ok f1)
    (hwr : weather_requirements model = Except.ok (required, intervalReq)) :
    (∀ fo foq, ahas f1 "weatherData" = true →
      model_input model (J.obj f0) overrides none fo foq =
        Except.error (PyErr.valueError (model.id ++ " requires WeatherData as input"))) ∧
    (∀ wd f2 c2 foq,
      phase_weather model required intervalReq mprops wd f1 = Except.ok f2 →
      aget f2 "configParameters" = some (J.obj c2) →
      ahas c2 "fieldObservations" = true →
      model_input model (J.obj f0) overrides wd none foq =
        Except.error (PyErr.valueError
          (model.id ++ " requires " ++ "fieldObservations" ++ " as input"))) ∧
    (∀ wd f2 fo f2b c3,
      phase_weather model required intervalReq mprops wd f1 = Except.ok f2 →
      phase_fieldobs model cpp "fieldObservations" fo f2 = Except.ok f2b →
      aget f2b "configParameters" = some (J.obj c3) →
      ahas c3 "fieldObservationQuantifications" = true →
      model_input model (J.obj f0) overrides wd fo none =
        Except.error (PyErr.valueError
          (model.id ++ " requires " ++ "fieldObservationQuantifications" ++ " as input"))) ∧
    (∀ w fo foq, ahas f1 "weatherData" = false → ahas mprops "weatherData" = false →
      model_input model (J.obj f0) overrides (some w) fo foq =
        model_input model (J.obj f0) overrides none fo foq) ∧
    (∀ wd f2 c2 v foq,
      phase_weather model required intervalReq mprops wd f1 = Except.ok f2 →
      aget f2 "configParameters" = some (J.obj c2) →
      ahas c2 "fieldObservations" = false → ahas cpp "fieldObservations" = false →
      model_input model (J.obj f0) overrides wd (some v) foq =
        model_input model (J.obj f0) overrides wd none foq) := by
  refine ⟨?_, ?_, ?_, ?_, ?_⟩
  · intro fo foq hw
    rw [model_input_unfolded model f0 overrides none fo foq mprops cpp f1
      required intervalReq hprep hph1 hwr]
    have hW : phase_weather model required intervalReq mprops none f1 =
        Except.error (PyErr.valueError (model.id ++ " requires WeatherData as input")) := by
      unfold phase_weather
      rw [hw]
      rfl
    rw [hW]
  · intro wd f2 c2 foq hpw hc2 hhas
    rw [model_input_unfolded model f0 overrides wd none foq mprops cpp f1
      required intervalReq hprep hph1 hwr, hpw]
    dsimp only
    have hF : phase_fieldobs model cpp "fieldObservations" none f2 =
        Except.error (PyErr.valueError
          (model.id ++ " requires " ++ "fieldObservations" ++ " as input")) := by
      unfold phase_fieldobs
      rw [hc2]
      dsimp only
      rw [hhas]
      rfl
    rw [hF]
  · intro wd f2 fo f2b c3 hpw hpf hc3 hhas
    rw [model_input_unfolded model f0 overrides wd fo none mprops cpp f1
      required intervalReq hprep hph1 hwr, hpw]
    dsimp only
    rw [hpf]
    dsimp only
    have hF : phase_fieldobs model cpp "fieldObservationQuantifications" none f2b =
        Except.error (PyErr.valueError
          (model.id ++ " requires " ++ "fieldObservationQuantifications" ++ " as input")) := by
      unfold phase_fieldobs
      rw [hc3]
      dsimp only
      rw [hhas]
      rfl
    rw [hF]
  · intro w fo foq hw1 hw2
    have e1 : phase_weather model required intervalReq mprops (some w) f1 =
        Except.ok f1 := by
      unfold phase_weather
      rw [hw1]
      simp only [Bool.false_eq_true, if_false]
      rw [hw2]
      simp only [Bool.false_eq_true, if_false]
    have e2 : phase_weather model required intervalReq mprops none f1 =
        Except.ok f1 := by
      unfold phase_weather
      rw [hw1]
      simp only [Bool.false_eq_true, if_false]
    rw [model_input_unfolded model f0 overrides (some w) fo foq mprops cpp f1
      required intervalReq hprep hph1 hwr,
      model_input_unfolded model f0 overrides none fo foq mprops cpp f1
      required intervalReq hprep hph1 hwr, e1, e2]
  · intro wd f2 c2 v foq hpw hc2 hf1 hf2
    have e1 : phase_fieldobs model cpp "fieldObservations" (some v) f2 =
        Except.ok f2 := by
      unfold phase_fieldobs
      rw [hc2]
      dsimp only
      rw [hf1]
      simp only [Bool.false_eq_true, if_false]
      rw [hf2]
      simp only [Bool.false_eq_true, if_false]
    have e2 : phase_fieldobs model cpp "fieldObservations" none f2 =
        Except.ok f2 := by
      unfold phase_fieldobs
      rw [hc2]
      dsimp only
      rw [hf1]
      simp only [Bool.false_eq_true, if_false]
    rw [model_input_unfolded model f0 overrides wd (some v) foq mprops cpp f1
      required intervalReq hprep hph1 hwr,
      model_input_unfolded model f0 overrides wd none foq mprops cpp f1
      required intervalReq hprep hph1 hwr, hpw]
    dsimp only
    rw [e1, e2]

/-- Witness for the amended C3 at three concrete models: a skeleton
carrying weatherData composed without weather data fails naming
WeatherData; a skeleton referencing fieldObservations composed without
field observations fails naming it; weather data supplied to a model
that references weatherData nowhere is silently ignored. -/
theorem C3_amended_required_inputs_witness :
    model_input model_c3 skel_c3b [] none none none =
      Except.error (PyErr.valueError "no.example.model requires WeatherData as input") ∧
    model_input model_c3f skel_c3f [] none none none =
      Except.error
        (PyErr.valueError "no.example.fieldmodel requires fieldObservations as input") ∧
    model_input model_c3p skel_c3p [] (some (J.s "ignored")) none none =
      model_input model_c3p skel_c3p [] none none none := by
  refine ⟨?_, ?_, ?_⟩
  · exact (C3_amended_required_inputs model_c3
      [("configParameters", J.obj []), ("weatherData", J.s "\x7bWEATHER_DATA\x7d")]
      []
      [("weatherData", weatherDataSentinelSchema),
       ("configParameters", J.obj [("properties", J.obj [])])]
      []
      [("configParameters", J.obj []), ("weatherData", J.s "\x7bWEATHER_DATA\x7d")]
      [] none rfl rfl rfl).1 none none rfl
  · exact (C3_amended_required_inputs model_c3f
      [("configParameters", J.obj [("fieldObservations", J.s "\x7bfieldObservations\x7d")])]
      []
      [("configParameters", J.obj [("properties", J.obj
         [("fieldObservations", sentinelSchemaFor "fieldObservations")])])]
      [("fieldObservations", sentinelSchemaFor "fieldObservations")]
      [("configParameters", J.obj [("fieldObservations", J.s "\x7bfieldObservations\x7d")])]
      [] none rfl rfl rfl).2.1 none
      [("configParameters", J.obj [("fieldObservations", J.s "\x7bfieldObservations\x7d")])]
      [("fieldObservations", J.s "\x7bfieldObservations\x7d")]
      none rfl rfl rfl
  · exact (C3_amended_required_inputs model_c3p
      [("configParameters", J.obj [])]
      []
      [("configParameters", J.obj [("properties", J.obj [])])]
      []
      [("configParameters", J.obj [])]
      [] none rfl rfl rfl).2.2.2.1 (J.s "ignored") none none rfl rfl

/-- Claim C4 as stated is refuted: for the fieldObservations key the
caller override does not win — the injected dataset, substituted after
the override loop, overwrites it.  Here the override dict carries
fieldObservations = callerOverride, a dataset injectedData is supplied,
and the composed value is injectedData, not the override. -/
theorem C4_counterexample_injection_beats_override :
    model_input model_c4 skel_c4 overrides_c4 none (some fo_c4) none =
      Except.ok out_c4 ∧
    aget overrides_c4 "fieldObservations" = some (J.s "callerOverride") ∧
    (jget out_c4 "configParameters").bind (fun c => jget c "fieldObservations") =
      some (J.s "injectedData") ∧
    J.s "injectedData" ≠ J.s "callerOverride" := by
  refine ⟨rfl, rfl, rfl, fun h => ?_⟩
  exact absurd (congrArg (fun x => match x with | J.s t => t | _ => "") h) (by decide)

/-- Claim C4 amended: when composition succeeds, every key of the
skeleton configParameters other than the two field-observation
properties gets, deterministically, the caller override when one is
present, else the schema-declared default when one exists, else the
generated fake value; for a referenced field-observation key the
supplied dataset is what ends up in the composed document, overriding
the loop result. -/
theorem C4_amended_override_policy (model : Model)
    (f0 ckvs mprops cpp overrides : List (String × J))
    (wd fo foq : Option J) (out : J)
    (hprep : model_input_prep model.input_schema = Except.ok (mprops, cpp))
    (hcfg : aget f0 "configParameters" = some (J.obj ckvs))
    (hok : model_input model (J.obj f0) overrides wd fo foq = Except.ok out) :
    (∀ p v, aget ckvs p = some v → p ≠ "fieldObservations" →
      p ≠ "fieldObservationQuantifications" →
      ∃ cout, jget out "configParameters" = some (J.obj cout) ∧
        aget cout p = some (composedConfigValue cpp overrides p v)) ∧
    (∀ dv, fo = some dv → ahas ckvs "fieldObservations" = true →
      ∃ cout, jget out "configParameters" = some (J.obj cout) ∧
        aget cout "fieldObservations" = some dv) ∧
    (∀ dv, foq = some dv → ahas ckvs "fieldObservationQuantifications" = true →
      ∃ cout, jget out "configParameters" = some (J.obj cout) ∧
        aget cout "fieldObservationQuantifications" = some dv) := by
  unfold model_input at hok
  rw [hprep] at hok
  dsimp only at hok
  cases hph : phase_overrides cpp overrides f0 with
  | error e => rw [hph] at hok; simp at hok
  | ok f1 =>
  rw [hph] at hok
  dsimp only at hok
  cases hwr : weather_requirements model with
  | error e => rw [hwr] at hok; simp at hok
  | ok rq =>
  obtain ⟨required, intervalReq⟩ := rq
  rw [hwr] at hok
  dsimp only at hok
  cases hpw : phase_weather model required intervalReq mprops wd f1 with
  | error e => rw [hpw] at hok; simp at hok
  | ok f2 =>
  rw [hpw] at hok
  dsimp only at hok
  cases hpf1 : phase_fieldobs model cpp "fieldObservations" fo f2 with
  | error e => rw [hpf1] at hok; simp at hok
  | ok f2b =>
  rw [hpf1] at hok
  dsimp only at hok
  cases hpf2 : phase_fieldobs model cpp "fieldObservationQuantifications" foq f2b with
  | error e => rw [hpf2] at hok; simp at hok
  | ok f3 =>
  rw [hpf2] at hok
  simp only [Except.ok.injEq] at hok
  subst hok
  unfold phase_overrides at hph
  rw [hcfg] at hph
  dsimp only at hph
  cases hao : applyOverrides cpp overrides ckvs with
  | error e => rw [hao] at hph; simp at hph
  | ok ckvs1 =>
  rw [hao] at hph
  simp only [Except.ok.injEq] at hph
  have hc1 : aget f1 "configParameters" = some (J.obj ckvs1) := by
    rw [← hph]
    exact aget_aset_self f0 "configParameters" (J.obj ckvs1)
  have hc2 : aget f2 "configParameters" = some (J.obj ckvs1) := by
    rw [phase_weather_config model required intervalReq mprops wd f1 f2 hpw]
    exact hc1
  refine ⟨?_, ?_, ?_⟩
  · intro p v hv hne1 hne2
    obtain ⟨c3, hc3, he3⟩ := phase_fieldobs_preserve model cpp "fieldObservations"
      fo f2 f2b ckvs1 p hc2 hpf1 hne1
    obtain ⟨c4, hc4, he4⟩ := phase_fieldobs_preserve model cpp
      "fieldObservationQuantifications" foq f2b f3 c3 p hc3 hpf2 hne2
    refine ⟨c4, hc4, ?_⟩
    rw [he4, he3]
    exact applyOverrides_aget cpp overrides ckvs ckvs1 p v hao hv
  · intro dv hfo hhas
    subst hfo
    unfold ahas at hhas
    obtain ⟨v0, hv0⟩ := Option.isSome_iff_exists.mp hhas
    have hv1 : aget ckvs1 "fieldObservations" =
        some (composedConfigValue cpp overrides "fieldObservations" v0) :=
      applyOverrides_aget cpp overrides ckvs ckvs1 "fieldObservations" v0 hao hv0
    have hhas1 : ahas ckvs1 "fieldObservations" = true := by
      unfold ahas
      rw [hv1]
      rfl
    have hc3 : aget f2b "configParameters" =
        some (J.obj (aset ckvs1 "fieldObservations" dv)) :=
      phase_fieldobs_inject model cpp "fieldObservations" dv f2 f2b ckvs1 hc2 hhas1 hpf1
    obtain ⟨c4, hc4, he4⟩ := phase_fieldobs_preserve model cpp
      "fieldObservationQuantifications" foq f2b f3
      (aset ckvs1 "fieldObservations" dv) "fieldObservations" hc3 hpf2 (by decide)
    refine ⟨c4, hc4, ?_⟩
    rw [he4]
    exact aget_aset_self ckvs1 "fieldObservations" dv
  · intro dv hfoq hhas
    subst hfoq
    unfold ahas at hhas
    obtain ⟨v0, hv0⟩ := Option.isSome_iff_exists.mp hhas
    have hv1 : aget ckvs1 "fieldObservationQuantifications" =
        some (composedConfigValue cpp overrides "fieldObservationQuantifications" v0) :=
      applyOverrides_aget cpp overrides ckvs ckvs1
        "fieldObservationQuantifications" v0 hao hv0
    obtain ⟨c3, hc3, he3⟩ := phase_fieldobs_preserve model cpp "fieldObservations"
      fo f2 f2b ckvs1 "fieldObservationQuantifications" hc2 hpf1 (by decide)
    have hhas3 : ahas c3 "fieldObservationQuantifications" = true := by
      unfold ahas
      rw [he3, hv1]
      rfl
    have hc4 : aget f3 "configParameters" =
        some (J.obj (aset c3 "fieldObservationQuantifications" dv)) :=
      phase_fieldobs_inject model cpp "fieldObservationQuantifications" dv
        f2b f3 c3 hc3 hhas3 hpf2
    refine ⟨aset c3 "fieldObservationQuantifications" dv, hc4, ?_⟩
    exact aget_aset_self c3 "fieldObservationQuantifications" dv

/-- Witness for the amended C4 at two concrete runs: threshold takes
the caller override 9 over the fake 1, timeZone takes the declared
default, fieldObservations carries the injected dataset, and in a
second run with a caller override for fieldObservationQuantifications
the injected dataset carries that key too. -/
theorem C4_amended_override_policy_witness :
    (∃ cout, jget out_c4 "configParameters" = some (J.obj cout) ∧
      aget cout "threshold" = some (J.i 9)) ∧
    (∃ cout, jget out_c4 "configParameters" = some (J.obj cout) ∧
      aget cout "timeZone" = some (J.s "UTC")) ∧
    (∃ cout, jget out_c4 "configParameters" = some (J.obj cout) ∧
      aget cout "fieldObservations" = some fo_c4) ∧
    (∃ cout, jget out_c4q "configParameters" = some (J.obj cout) ∧
      aget cout "fieldObservationQuantifications" = some foq_c4) := by
  have h := C4_amended_override_policy model_c4
    [("configParameters", J.obj
      [("fieldObservations", J.s "\x7bfieldObservations\x7d"),
       ("timeZone", J.s "fakedZone"),
       ("threshold", J.i 1)])]
    [("fieldObservations", J.s "\x7bfieldObservations\x7d"),
     ("timeZone", J.s "fakedZone"),
     ("threshold", J.i 1)]
    [("configParameters", J.obj
      [("properties", J.obj
        [("fieldObservations", sentinelSchemaFor "fieldObservations"),
         ("timeZone", J.obj [("type", J.s "string"), ("default", J.s "UTC")]),
         ("threshold", J.obj [("type", J.s "integer")])])])]
    [("fieldObservations", sentinelSchemaFor "fieldObservations"),
     ("timeZone", J.obj [("type", J.s "string"), ("default", J.s "UTC")]),
     ("threshold", J.obj [("type", J.s "integer")])]
    overrides_c4 none (some fo_c4) none out_c4 rfl rfl rfl
  refine ⟨?_, ?_, ?_, ?_⟩
  · obtain ⟨c, hc, hv⟩ := h.1 "threshold" (J.i 1) rfl (by decide) (by decide)
    refine ⟨c, hc, ?_⟩
    rw [hv]
    rfl
  · obtain ⟨c, hc, hv⟩ := h.1 "timeZone" (J.s "fakedZone") rfl (by decide) (by decide)
    refine ⟨c, hc, ?_⟩
    rw [hv]
    rfl
  · obtain ⟨c, hc, hv⟩ := h.2.1 fo_c4 rfl rfl
    exact ⟨c, hc, hv⟩
  · have h2 := C4_amended_override_policy model_c4q
      [("configParameters", J.obj
        [("fieldObservationQuantifications", J.s "\x7bfieldObservationQuantifications\x7d")])]
      [("fieldObservationQuantifications", J.s "\x7bfieldObservationQuantifications\x7d")]
      [("configParameters", J.obj
        [("properties", J.obj
          [("fieldObservationQuantifications",
            sentinelSchemaFor "fieldObservationQuantifications")])])]
      [("fieldObservationQuantifications",
        sentinelSchemaFor "fieldObservationQuantifications")]
      [("fieldObservationQuantifications", J.s "quantOverride")]
      none none (some foq_c4) out_c4q rfl rfl rfl
    obtain ⟨c, hc, hv⟩ := h2.2.2 foq_c4 rfl rfl
    exact ⟨c, hc, hv⟩

/-- Witness for the amended C6 at the concrete C6 schema: the mutated
properties carry the WEATHER_DATA sentinel schema for weatherData and
the name-keyed sentinel schema for fieldObservations. -/
theorem C6_amended_sentinel_replacement_witness :
    aget [("weatherData", weatherDataSentinelSchema),
          ("configParameters", J.obj [("properties", J.obj
            [("fieldObservations", sentinelSchemaFor "fieldObservations")])])]
      "weatherData" = some weatherDataSentinelSchema ∧
    aget [("fieldObservations", sentinelSchemaFor "fieldObservations")]
      "fieldObservations" = some (sentinelSchemaFor "fieldObservations") := by
  have h := C6_amended_sentinel_replacement
    [("properties", J.obj props_c6)] props_c6
    [("properties", J.obj [("fieldObservations", J.obj [("type", J.s "array")])])]
    [("fieldObservations", J.obj [("type", J.s "array")])]
    [("weatherData", weatherDataSentinelSchema),
     ("configParameters", J.obj [("properties", J.obj
       [("fieldObservations", sentinelSchemaFor "fieldObservations")])])]
    [("fieldObservations", sentinelSchemaFor "fieldObservations")]
    rfl rfl rfl rfl
  exact ⟨h.1 rfl, h.2.1 rfl⟩
